import Mathlib

/-!
Verification of the S3 key-value store driver's per-operation task pipeline
(`tensorstore/kvstore/s3/s3_key_value_store.cc`): response classification for
the Read, Write, Delete and List tasks, the HEAD precondition probe used to
emulate conditional PUT/DELETE, the retry/backoff policy, and paginated
listing with its XML parsing and range filtering.

Definitions are translated from the source file.  External collaborators that
live outside the source tree (the HTTP status-code classifier, the shared
retriability predicate, the XML tag extractor, byte-range validation, the
exponential backoff calculator, the ETag/Content-Range header readers) are
modelled from the specification; each such definition carries a doc comment
beginning "Modelled from the spec".  Timestamps and durations are modelled as
integers (nanoseconds); byte strings as Lean strings.
-/

/-! ## Status values -/

/-- Statuses the driver's control flow distinguishes, specialized from
absl::Status.  `httpError` carries the HTTP status code that
HttpResponseCodeToStatus classified as an error; `transportError` is a
transport-level I/O failure carried inside an errored Result<HttpResponse>;
`abortedError` is the "All N retry attempts failed" annotation that wraps the
original status when the retry budget is exhausted. -/
inductive AbslStatus where
  | ok
  | httpError (status_code : Nat)
  | transportError (msg : String)
  | invalidArgumentError (msg : String)
  | outOfRangeError (msg : String)
  | failedPreconditionError (msg : String)
  | abortedError (attempts : Nat) (wrapped : AbslStatus)
  deriving DecidableEq

def AbslStatus.isOk : AbslStatus → Bool
  | .ok => true
  | _ => false

/-- Modelled from the spec: the shared retriability predicate.  HTTP 408, 429
and 5xx responses are retriable, as are transport-level I/O failures; all
other statuses (2xx, 3xx, other 4xx, and the driver's own terminal errors)
are not.  The source's IsRetriable lives outside this repository's source
tree. -/
def IsRetriable : AbslStatus → Bool
  | .httpError c => c == 408 || c == 429 || (decide (500 ≤ c) && decide (c < 600))
  | .transportError _ => true
  | _ => false

/-! ## HTTP responses -/

/-- An HTTP response as the driver consumes it.  `etag` models the response
`ETag` header (none when absent); `content_range` models the parsed
`Content-Range: bytes A-B/C` header as the triple (A, B, C), none when the
header is absent or unparseable. -/
structure HttpResponse where
  status_code : Nat
  payload : String
  etag : Option String
  content_range : Option (Nat × Nat × Nat)
  deriving DecidableEq

/-- Modelled from the spec: HttpResponseCodeToStatus classifies an HTTP
response, with 2xx meaning success and every other status code surfacing as
an error carrying that code.  (It lives outside this repository's source
tree; that 404/412/304 are errors under it is also visible in the source,
which special-cases exactly those codes to OkStatus in the Read and Delete
tasks before calling it.) -/
def HttpResponseCodeToStatus (resp : HttpResponse) : AbslStatus :=
  if resp.status_code < 300 then .ok else .httpError resp.status_code

/-! ## Generations and results -/

/-- StorageGeneration, per the spec's data model: Unknown ("don't care" /
"precondition failed"), NoValue ("object absent"), or a concrete ETag. -/
inductive StorageGeneration where
  | unknown
  | noValue
  | value (etag : String)
  deriving DecidableEq

def StorageGeneration.IsUnknown : StorageGeneration → Bool
  | .unknown => true
  | _ => false

def StorageGeneration.IsNoValue : StorageGeneration → Bool
  | .noValue => true
  | _ => false

structure TimestampedStorageGeneration where
  generation : StorageGeneration
  time : Int
  deriving DecidableEq

inductive ReadResultState where
  | unspecified
  | missing
  | value
  deriving DecidableEq

/-- kvstore::ReadResult; a default-constructed one has state kUnspecified and
an empty value. -/
structure ReadResult where
  state : ReadResultState := .unspecified
  value : String := ""
  stamp : TimestampedStorageGeneration
  deriving DecidableEq

/-- Modelled from the spec: StorageGenerationFromHeaders extracts the
generation from the response ETag header, failing when the header is
absent. -/
def StorageGenerationFromHeaders (resp : HttpResponse) : Except AbslStatus StorageGeneration :=
  match resp.etag with
  | some e => .ok (.value e)
  | none => .error (.failedPreconditionError "etag not found in response headers")

/-- Modelled from the spec: ParseContentRangeHeader yields the (A, B, C)
triple of a `Content-Range: bytes A-B/C` response header, failing when the
header is absent or malformed. -/
def ParseContentRangeHeader (resp : HttpResponse) : Except AbslStatus (Nat × Nat × Nat) :=
  match resp.content_range with
  | some t => .ok t
  | none => .error (.failedPreconditionError "no content-range header expected by S3 Range Read")

/-! ## Byte ranges -/

/-- OptionalByteRangeRequest, per the spec's data model: `{inclusive_min,
exclusive_max}` with either bound optionally unset (-1 sentinel) and both
unset meaning the whole object. -/
structure OptionalByteRangeRequest where
  inclusive_min : Int
  exclusive_max : Int
  deriving DecidableEq

/-- Modelled from the spec: the total size requested by the byte range, -1
when no total size was specified (exclusive_max unset). -/
def OptionalByteRangeRequest.size (r : OptionalByteRangeRequest) : Int :=
  if r.exclusive_max = -1 then -1
  else r.exclusive_max - (if r.inclusive_min = -1 then 0 else r.inclusive_min)

/-- Modelled from the spec: validate/clamp the requested byte range against
the payload size, producing the concrete [min, max) slice of the payload;
unset bounds mean the whole object. -/
def OptionalByteRangeRequest.Validate (r : OptionalByteRangeRequest) (sz : Nat) :
    Except AbslStatus (Nat × Nat) :=
  let imin : Int := if r.inclusive_min = -1 then 0 else r.inclusive_min
  let emax : Int := if r.exclusive_max = -1 then (sz : Int) else r.exclusive_max
  if 0 ≤ imin ∧ imin ≤ emax ∧ emax ≤ (sz : Int) then
    .ok (imin.toNat, emax.toNat)
  else
    .error (.outOfRangeError "Requested byte range is not satisfiable")

def strTake (n : Nat) (s : String) : String := ⟨s.data.take n⟩

def strDrop (n : Nat) (s : String) : String := ⟨s.data.drop n⟩

/-- internal::GetSubCord: the [a, b) slice of the payload. -/
def GetSubCord (s : String) (a b : Nat) : String := ⟨(s.data.drop a).take (b - a)⟩

/-! ## Retry/backoff policy -/

/-- The S3RequestRetries resource: retry budget and delay bounds
(nanoseconds). -/
structure RetrySpec where
  max_retries : Nat
  initial_delay : Int
  max_delay : Int
  deriving DecidableEq

def oneSecond : Int := 1000000000

/-- Modelled from the spec: internal::BackoffForAttempt computes
min(initial_delay * 2 ^ attempt, max_delay) plus additive jitter; the jitter
(drawn uniformly from [0, min(1s, initial_delay)] in the source) enters the
model as a free parameter. -/
def BackoffForAttempt (attempt : Nat) (initial_delay max_delay jitter : Int) : Int :=
  min (initial_delay * 2 ^ attempt) max_delay + jitter

/-- Outcome of S3KeyValueStore::BackoffForAttemptAsync: either the task fails
terminally (the returned non-OK status), or Retry was scheduled on the
executor for `time` and the shared retries counter now reads
`retries_counter`. -/
inductive BackoffOutcome where
  | terminalFailure (e : AbslStatus)
  | retryAt (time : Int) (retries_counter : Nat)
  deriving DecidableEq

/-- S3KeyValueStore::BackoffForAttemptAsync: when `attempt` has reached
max_retries the original status is wrapped in an Aborted-coded "All N retry
attempts failed" annotation and returned; otherwise the s3_retries counter is
incremented and task->Retry() is scheduled at now + delay. -/
def S3KeyValueStore.BackoffForAttemptAsync (s : RetrySpec) (status : AbslStatus)
    (attempt retries_counter : Nat) (jitter now : Int) : BackoffOutcome :=
  if s.max_retries ≤ attempt then
    .terminalFailure (.abortedError attempt status)
  else
    .retryAt (now + BackoffForAttempt attempt s.initial_delay s.max_delay jitter)
      (retries_counter + 1)

/-- Outcome of a point-operation response handler: either a retry is now
pending (Retry scheduled at `retry_time`, retries counter at
`retries_counter`), or the task's promise was completed with a result or an
error. -/
inductive TaskOutcome (α : Type) where
  | pending (retry_time : Int) (retries_counter : Nat)
  | completed (r : Except AbslStatus α)

/-! ## ReadTask -/

structure ReadOptions where
  byte_range : OptionalByteRangeRequest
  if_equal : StorageGeneration
  if_not_equal : StorageGeneration
  deriving DecidableEq

/-- ReadTask::FinishResponse.  `start_time` is the task's start_time_, the
timestamp captured in Retry() immediately before the HTTP request was issued;
every produced ReadResult carries it as stamp.time. -/
def ReadTask.FinishResponse (o : ReadOptions) (start_time : Int) (resp : HttpResponse) :
    Except AbslStatus ReadResult :=
  if resp.status_code = 204 ∨ resp.status_code = 404 then
    .ok { state := .missing, value := "", stamp := ⟨.noValue, start_time⟩ }
  else if resp.status_code = 412 then
    .ok { state := .unspecified, value := "", stamp := ⟨.unknown, start_time⟩ }
  else if resp.status_code = 304 then
    .ok { state := .unspecified, value := "", stamp := ⟨o.if_not_equal, start_time⟩ }
  else if resp.status_code ≠ 206 then
    match o.byte_range.Validate resp.payload.length with
    | .error e => .error e
    | .ok br =>
      match StorageGenerationFromHeaders resp with
      | .error e => .error e
      | .ok g =>
        .ok { state := .value, value := GetSubCord resp.payload br.1 br.2,
              stamp := ⟨g, start_time⟩ }
  else
    match ParseContentRangeHeader resp with
    | .error e => .error e
    | .ok cr =>
      if (o.byte_range.inclusive_min ≠ -1 ∧ o.byte_range.inclusive_min ≠ (cr.1 : Int)) ∨
         (o.byte_range.size ≠ -1 ∧ o.byte_range.size ≠ (resp.payload.length : Int)) then
        .error (.outOfRangeError "Requested byte range was not satisfied by S3 response")
      else
        match StorageGenerationFromHeaders resp with
        | .error e => .error e
        | .ok g => .ok { state := .value, value := resp.payload, stamp := ⟨g, start_time⟩ }

/-- ReadTask::OnResponse's status classification: 412, 404 and 304 are
special codes handled outside the retry loop (OkStatus); everything else is
classified by HttpResponseCodeToStatus, and an errored Result passes its own
status through. -/
def ReadTask.responseStatus (response : Except AbslStatus HttpResponse) : AbslStatus :=
  match response with
  | .error e => e
  | .ok r =>
    if r.status_code = 412 ∨ r.status_code = 404 ∨ r.status_code = 304 then .ok
    else HttpResponseCodeToStatus r

/-- ReadTask::OnResponse (taken at a point where the promise still needs a
result): classify the response; retriable failures go through
BackoffForAttemptAsync, non-retriable failures complete the promise with the
error, and OK statuses complete it with FinishResponse. -/
def ReadTask.OnResponse (s : RetrySpec) (o : ReadOptions) (start_time : Int)
    (attempt retries : Nat) (jitter now : Int)
    (response : Except AbslStatus HttpResponse) : TaskOutcome ReadResult :=
  if !(ReadTask.responseStatus response).isOk && IsRetriable (ReadTask.responseStatus response) then
    match S3KeyValueStore.BackoffForAttemptAsync s (ReadTask.responseStatus response)
        attempt retries jitter now with
    | .retryAt t r => .pending t r
    | .terminalFailure e => .completed (.error e)
  else if !(ReadTask.responseStatus response).isOk then
    .completed (.error (ReadTask.responseStatus response))
  else
    match response with
    | .ok resp => .completed (ReadTask.FinishResponse o start_time resp)
    | .error e => .completed (.error e)

/-! ## WriteTask and DeleteTask -/

structure WriteOptions where
  if_equal : StorageGeneration
  deriving DecidableEq

deriving instance DecidableEq for Except

/-- Outcome of the Phase 1 HEAD precondition probe (OnPeekResponse): either
the task's promise was completed (precondition failure result or error
status), or control proceeds to Phase 2 (DoPut for WriteTask, DoDelete for
DeleteTask).  OnPeekResponse never retries. -/
inductive PeekOutcome where
  | completed (r : Except AbslStatus TimestampedStorageGeneration)
  | proceedToPhase2
  deriving DecidableEq

/-- WriteTask::OnPeekResponse: a transport failure completes the promise with
that status; 304 and 412 mean the generation did not match; 404 means the
object is absent, which is a precondition failure unless if_equal is Unknown
or NoValue; every other status code (including 200 and 5xx) proceeds to
DoPut.  `now` models the absl::Now() call at the top of the handler. -/
def WriteTask.OnPeekResponse (o : WriteOptions) (now : Int)
    (response : Except AbslStatus HttpResponse) : PeekOutcome :=
  match response with
  | .error e => .completed (.error e)
  | .ok resp =>
    if resp.status_code = 304 ∨ resp.status_code = 412 then
      .completed (.ok ⟨.unknown, now⟩)
    else if resp.status_code = 404 then
      if !o.if_equal.IsUnknown && !o.if_equal.IsNoValue then
        .completed (.ok ⟨.unknown, now⟩)
      else
        .proceedToPhase2
    else
      .proceedToPhase2

/-- WriteTask::FinishResponse: a 404 with a conditional write yields the
precondition-failure result; otherwise the generation is extracted from the
response ETag.  `start_time` is start_time_, captured in DoPut immediately
before the PUT was issued. -/
def WriteTask.FinishResponse (o : WriteOptions) (start_time : Int) (resp : HttpResponse) :
    Except AbslStatus TimestampedStorageGeneration :=
  if resp.status_code = 404 ∧ !o.if_equal.IsUnknown then
    .ok ⟨.unknown, start_time⟩
  else
    match StorageGenerationFromHeaders resp with
    | .error e => .error e
    | .ok g => .ok ⟨g, start_time⟩

/-- WriteTask::OnResponse's status classification: unlike the Read and Delete
tasks, no status code is special-cased before HttpResponseCodeToStatus; an
errored Result passes its status through. -/
def WriteTask.responseStatus (response : Except AbslStatus HttpResponse) : AbslStatus :=
  match response with
  | .error e => e
  | .ok resp => HttpResponseCodeToStatus resp

/-- WriteTask::OnResponse (promise still needed): classify, retry retriable
failures, surface other failures as the error status, and finish OK
responses with FinishResponse. -/
def WriteTask.OnResponse (s : RetrySpec) (o : WriteOptions) (start_time : Int)
    (attempt retries : Nat) (jitter now : Int)
    (response : Except AbslStatus HttpResponse) : TaskOutcome TimestampedStorageGeneration :=
  if !(WriteTask.responseStatus response).isOk &&
      IsRetriable (WriteTask.responseStatus response) then
    match S3KeyValueStore.BackoffForAttemptAsync s (WriteTask.responseStatus response)
        attempt retries jitter now with
    | .retryAt t r => .pending t r
    | .terminalFailure e => .completed (.error e)
  else if !(WriteTask.responseStatus response).isOk then
    .completed (.error (WriteTask.responseStatus response))
  else
    match response with
    | .ok resp => .completed (WriteTask.FinishResponse o start_time resp)
    | .error e => .completed (.error e)

/-- DeleteTask::OnPeekResponse: like WriteTask's but without the 304 case. -/
def DeleteTask.OnPeekResponse (o : WriteOptions) (now : Int)
    (response : Except AbslStatus HttpResponse) : PeekOutcome :=
  match response with
  | .error e => .completed (.error e)
  | .ok resp =>
    if resp.status_code = 412 then
      .completed (.ok ⟨.unknown, now⟩)
    else if resp.status_code = 404 then
      if !o.if_equal.IsUnknown && !o.if_equal.IsNoValue then
        .completed (.ok ⟨.unknown, now⟩)
      else
        .proceedToPhase2
    else
      .proceedToPhase2

/-- DeleteTask::OnResponse's status classification: 404 is special-cased to
OkStatus before HttpResponseCodeToStatus; an errored Result passes its status
through. -/
def DeleteTask.responseStatus (response : Except AbslStatus HttpResponse) : AbslStatus :=
  match response with
  | .error e => e
  | .ok resp =>
    if resp.status_code = 404 then .ok else HttpResponseCodeToStatus resp

/-- DeleteTask::OnResponse (promise still needed): on an OK-classified
response the generation is NoValue, except that a 404 under a concrete-Value
if_equal condition yields Unknown.  `start_time` is start_time_, captured in
DoDelete immediately before the DELETE was issued. -/
def DeleteTask.OnResponse (s : RetrySpec) (o : WriteOptions) (start_time : Int)
    (attempt retries : Nat) (jitter now : Int)
    (response : Except AbslStatus HttpResponse) : TaskOutcome TimestampedStorageGeneration :=
  if !(DeleteTask.responseStatus response).isOk &&
      IsRetriable (DeleteTask.responseStatus response) then
    match S3KeyValueStore.BackoffForAttemptAsync s (DeleteTask.responseStatus response)
        attempt retries jitter now with
    | .retryAt t r => .pending t r
    | .terminalFailure e => .completed (.error e)
  else if !(DeleteTask.responseStatus response).isOk then
    .completed (.error (DeleteTask.responseStatus response))
  else
    match response with
    | .error e => .completed (.error e)
    | .ok resp =>
      .completed (.ok ⟨
        if resp.status_code = 404 ∧ !o.if_equal.IsNoValue ∧ !o.if_equal.IsUnknown then
          StorageGeneration.unknown
        else
          StorageGeneration.noValue, start_time⟩)

/-! ## ListTask -/

/-- KeyRange, per the spec's data model: the interval
[inclusive_min, exclusive_max) of keys, with an empty exclusive_max meaning
unbounded above. -/
structure KeyRange where
  inclusive_min : String
  exclusive_max : String
  deriving DecidableEq

def charsLt : List Char → List Char → Bool
  | _, [] => false
  | [], _ :: _ => true
  | a :: as, b :: bs =>
    if a.toNat < b.toNat then true
    else if b.toNat < a.toNat then false
    else charsLt as bs

def strLt (a b : String) : Bool := charsLt a.data b.data

def strLe (a b : String) : Bool := !strLt b a

/-- Modelled from the spec: tensorstore::Contains(KeyRange, key) holds iff
the key lies in [inclusive_min, exclusive_max), with empty exclusive_max
meaning unbounded. -/
def KeyRange.Contains (r : KeyRange) (k : String) : Bool :=
  strLe r.inclusive_min k && (r.exclusive_max.data.isEmpty || strLt k r.exclusive_max)

/-- Modelled from the spec: a KeyRange is empty when its upper bound is set
and not above its lower bound; an empty range elides the operation. -/
def KeyRange.isEmptyRange (r : KeyRange) : Bool :=
  !r.exclusive_max.data.isEmpty && strLe r.exclusive_max r.inclusive_min

structure ListOptions where
  range : KeyRange
  strip_prefix_length : Nat
  deriving DecidableEq

def leadMatch : List Char → List Char → Bool
  | [], _ => true
  | _ :: _, [] => false
  | n :: ns, h :: hs => (n.toNat == h.toNat) && leadMatch ns hs

def findFrom (ndl : List Char) : List Char → Nat → Option Nat
  | [], i => if ndl.isEmpty then some i else none
  | h :: hs, i =>
    if leadMatch ndl (h :: hs) then some i else findFrom ndl hs (i + 1)

/-- Position of the first occurrence of `ndl` in `hay` at or after `pos`. -/
def findSub (hay ndl : List Char) (pos : Nat) : Option Nat :=
  match findFrom ndl (hay.drop pos) 0 with
  | some i => some (pos + i)
  | none => none

structure TagAndPosition where
  tag : String
  pos : Nat
  deriving DecidableEq

/-- Modelled from the spec: FindTag locates the literal tag in the payload at
or after `pos` by textual matching, returning the position just past it, and
fails when the tag is absent. -/
def FindTag (payload tag : String) (pos : Nat) : Except AbslStatus Nat :=
  match findSub payload.data tag.data pos with
  | some i => .ok (i + tag.length)
  | none => .error (.invalidArgumentError ("Malformed ListObjectV2 response: missing tag " ++ tag))

def strSlice (s : String) (a b : Nat) : String := ⟨(s.data.drop a).take (b - a)⟩

/-- Modelled from the spec: GetTag extracts the text between the given open
and close tags, searching from `pos`, and returns it together with the
position just past the close tag. -/
def GetTag (payload open_tag close_tag : String) (pos : Nat) :
    Except AbslStatus TagAndPosition :=
  match FindTag payload open_tag pos with
  | .error e => .error e
  | .ok content_start =>
    match findSub payload.data close_tag.data content_start with
    | some close_ix =>
      .ok ⟨strSlice payload content_start close_ix, close_ix + close_tag.length⟩
    | none =>
      .error (.invalidArgumentError
        ("Malformed ListObjectV2 response: missing tag " ++ close_tag))

def kListBucketOpenTag : String :=
  "<ListBucketResult xmlns=\"http://s3.amazonaws.com/doc/2006-03-01/\">"

def digitVal (c : Char) : Option Nat :=
  if 48 ≤ c.toNat ∧ c.toNat ≤ 57 then some (c.toNat - 48) else none

def parseNatCore : List Char → Nat → Option Nat
  | [], acc => some acc
  | c :: cs, acc =>
    match digitVal c with
    | some d => parseNatCore cs (acc * 10 + d)
    | none => none

/-- Modelled from the spec: absl::SimpleAtoi on a decimal count. -/
def SimpleAtoi (s : String) : Option Nat :=
  match s.data with
  | [] => none
  | l => parseNatCore l 0

/-- The KeyCount loop of ListTask::OnResponseImpl: for each of `k` content
blocks, locate `<Contents>` then extract `<Key>`; the key is emitted iff the
(possibly already mutated) options range is non-empty and contains it, with
the first strip_prefix_length bytes removed when the key is long enough.
Returns the emitted keys in order and either the position after the last
`</Key>` or the first extraction error. -/
def ContentsLoop (o : ListOptions) (payload : String) :
    Nat → Nat → List String × Except AbslStatus Nat
  | 0, pos => ([], .ok pos)
  | k + 1, pos =>
    match FindTag payload "<Contents>" pos with
    | .error e => ([], .error e)
    | .ok contents_pos =>
      match GetTag payload "<Key>" "</Key>" contents_pos with
      | .error e => ([], .error e)
      | .ok tp =>
        let emitted :=
          if !o.range.isEmptyRange && o.range.Contains tp.tag then
            [if o.strip_prefix_length ≠ 0 ∧ o.strip_prefix_length ≤ tp.tag.length then
               strDrop o.strip_prefix_length tp.tag
             else tp.tag]
          else []
        let rest := ContentsLoop o payload k tp.pos
        (emitted ++ rest.1, rest.2)

/-- The XML-processing tail of ListTask::OnResponseImpl: locate the
ListBucketResult open tag, read KeyCount, run the contents loop, then read
IsTruncated (and NextContinuationToken when "true").  Returns the keys
emitted to the receiver, and: `ok (some token)` when another page is issued,
`ok none` when the listing completed (set_done/set_stopping), or the first
extraction error. -/
def ParseAndEmit (o : ListOptions) (payload : String) :
    List String × Except AbslStatus (Option String) :=
  match FindTag payload kListBucketOpenTag 0 with
  | .error e => ([], .error e)
  | .ok start_pos =>
    match GetTag payload "<KeyCount>" "</KeyCount>" start_pos with
    | .error e => ([], .error e)
    | .ok tp =>
      match SimpleAtoi tp.tag with
      | none => ([], .error (.invalidArgumentError ("Malformed KeyCount " ++ tp.tag)))
      | some keycount =>
        let loop := ContentsLoop o payload keycount tp.pos
        match loop.2 with
        | .error e => (loop.1, .error e)
        | .ok _ =>
          match GetTag payload "<IsTruncated>" "</IsTruncated>" start_pos with
          | .error e => (loop.1, .error e)
          | .ok tp2 =>
            if tp2.tag = "true" then
              match GetTag payload "<NextContinuationToken>" "</NextContinuationToken>"
                  start_pos with
              | .error e => (loop.1, .error e)
              | .ok tp3 => (loop.1, .ok (some tp3.tag))
            else
              (loop.1, .ok none)

/-- How ListTask::OnResponseImpl disposed of one response. -/
inductive ListDisposition where
  | cancelledDisp
  | backoffScheduled (retry_time : Int) (retries_counter : Nat)
  | backoffExhausted (e : AbslStatus)
  | parsed (emitted : List String) (outcome : Except AbslStatus (Option String))

/-- ListTask::IssueRequest's effect on the task's stored options: the prefix
query parameter is built by binding a reference to options_.range.inclusive_min
and, when strip_prefix_length is non-zero, assigning the substring back
through that reference — so the stored range's lower bound is truncated to
its first strip_prefix_length bytes before the response is processed. -/
def ListTask.IssueRequestOptions (o : ListOptions) : ListOptions :=
  if !o.range.inclusive_min.data.isEmpty && o.strip_prefix_length ≠ 0 then
    { o with range := { o.range with
        inclusive_min := strTake o.strip_prefix_length o.range.inclusive_min } }
  else o

def ListTask.responseStatus (response : Except AbslStatus HttpResponse) : AbslStatus :=
  match response with
  | .error e => e
  | .ok r => HttpResponseCodeToStatus r

/-- ListTask::OnResponseImpl: a set cancelled flag returns CancelledError
before anything else; then the status (transport error, or
HttpResponseCodeToStatus of the response) is computed, and a retriable
failure goes through BackoffForAttemptAsync.  Any other status — including a
non-retriable HTTP error — falls through to the XML parse of the payload.
`none` models the undefined behavior of dereferencing an errored
Result<HttpResponse> for its payload. -/
def ListTask.OnResponseImpl (s : RetrySpec) (o : ListOptions) (cancelled : Bool)
    (attempt retries : Nat) (jitter now : Int)
    (response : Except AbslStatus HttpResponse) : Option ListDisposition :=
  if cancelled then some .cancelledDisp
  else if !(ListTask.responseStatus response).isOk &&
      IsRetriable (ListTask.responseStatus response) then
    some (match S3KeyValueStore.BackoffForAttemptAsync s (ListTask.responseStatus response)
            attempt retries jitter now with
          | .retryAt t r => .backoffScheduled t r
          | .terminalFailure e => .backoffExhausted e)
  else
    match response with
    | .error _ => none
    | .ok resp =>
      some (.parsed (ParseAndEmit o resp.payload).1 (ParseAndEmit o resp.payload).2)

/-- Events observed by the flow receiver for one OnResponse invocation, in
order. -/
inductive ListEvent where
  | value (key : String)
  | done
  | errorEv (e : AbslStatus)
  | stopping
  deriving DecidableEq

/-- ListTask::OnResponse: set_value events happen inside OnResponseImpl's
loop; a Cancelled status from the impl yields set_done/set_stopping, any
other non-OK status yields set_error/set_stopping, and an OK status (a
scheduled retry, a next page issued, or a completed listing whose
set_done/set_stopping the impl already posted) adds nothing further. -/
def ListTask.OnResponse (s : RetrySpec) (o : ListOptions) (cancelled : Bool)
    (attempt retries : Nat) (jitter now : Int)
    (response : Except AbslStatus HttpResponse) : List ListEvent :=
  match ListTask.OnResponseImpl s o cancelled attempt retries jitter now response with
  | none => []
  | some .cancelledDisp => [.done, .stopping]
  | some (.backoffScheduled _ _) => []
  | some (.backoffExhausted e) => [.errorEv e, .stopping]
  | some (.parsed emitted (.ok (some _))) => emitted.map .value
  | some (.parsed emitted (.ok none)) => emitted.map .value ++ [.done, .stopping]
  | some (.parsed emitted (.error e)) => emitted.map .value ++ [.errorEv e, .stopping]

/-- One full page of a List call as the driver executes it: IssueRequest
(whose prefix computation mutates the stored options) followed by OnResponse
on the returned page. -/
def ListTask.ProcessFirstPage (s : RetrySpec) (o : ListOptions) (cancelled : Bool)
    (attempt retries : Nat) (jitter now : Int)
    (response : Except AbslStatus HttpResponse) : List ListEvent :=
  ListTask.OnResponse s (ListTask.IssueRequestOptions o) cancelled attempt retries jitter now
    response

/-- A single ListObjectsV2 page whose sole content block carries the key
"aa", with IsTruncated false. -/
def listPageWithKeyAA : String :=
  "<ListBucketResult xmlns=\"http://s3.amazonaws.com/doc/2006-03-01/\"><KeyCount>1</KeyCount><Contents><Key>aa</Key></Contents><IsTruncated>false</IsTruncated></ListBucketResult>"

/-! ## Theorems -/

/-- Every successful FinishResponse result stamps the time captured before
the request was issued. -/
theorem ReadTask.finishResponse_stamp_time (o : ReadOptions) (t : Int) (resp : HttpResponse)
    (r : ReadResult) (h : ReadTask.FinishResponse o t resp = .ok r) : r.stamp.time = t := by
  unfold ReadTask.FinishResponse at h
  repeat' split at h
  all_goals first
    | exact Except.noConfusion h
    | (cases h; rfl)

/-- C1: for every Read whose HTTP response is terminal, ReadTask maps the
status code as specified — 204 or 404 yield ReadResult{state=Missing,
stamp.generation=NoValue}; 412 yields ReadResult{state=Unspecified,
stamp.generation=Unknown}; 304 yields ReadResult{state=Unspecified,
stamp.generation = the caller's if_not_equal} — and in every case a
successful completion stamps stamp.time with start_time, the timestamp
captured in Retry() immediately before the HTTP request was issued. -/
theorem read_terminal_status_mapping (s : RetrySpec) (o : ReadOptions) (start_time : Int)
    (attempt retries : Nat) (jitter now : Int) (resp : HttpResponse) :
    ((resp.status_code = 204 ∨ resp.status_code = 404) →
      ReadTask.OnResponse s o start_time attempt retries jitter now (.ok resp) =
        .completed (.ok ⟨.missing, "", ⟨.noValue, start_time⟩⟩)) ∧
    (resp.status_code = 412 →
      ReadTask.OnResponse s o start_time attempt retries jitter now (.ok resp) =
        .completed (.ok ⟨.unspecified, "", ⟨.unknown, start_time⟩⟩)) ∧
    (resp.status_code = 304 →
      ReadTask.OnResponse s o start_time attempt retries jitter now (.ok resp) =
        .completed (.ok ⟨.unspecified, "", ⟨o.if_not_equal, start_time⟩⟩)) ∧
    (∀ r : ReadResult,
      ReadTask.OnResponse s o start_time attempt retries jitter now (.ok resp) =
        .completed (.ok r) → r.stamp.time = start_time) := by
  refine ⟨?_, ?_, ?_, ?_⟩
  · intro h
    rcases h with h | h <;>
      simp [ReadTask.OnResponse, ReadTask.responseStatus, ReadTask.FinishResponse,
        HttpResponseCodeToStatus, AbslStatus.isOk, IsRetriable, h]
  · intro h
    simp [ReadTask.OnResponse, ReadTask.responseStatus, ReadTask.FinishResponse,
      HttpResponseCodeToStatus, AbslStatus.isOk, IsRetriable, h]
  · intro h
    simp [ReadTask.OnResponse, ReadTask.responseStatus, ReadTask.FinishResponse,
      HttpResponseCodeToStatus, AbslStatus.isOk, IsRetriable, h]
  · intro r h
    unfold ReadTask.OnResponse at h
    split at h
    · split at h
      · exact TaskOutcome.noConfusion h
      · simp at h
    · split at h
      · simp at h
      · split at h
        · injection h with h'
          exact ReadTask.finishResponse_stamp_time o start_time _ r h'
        · simp at h

/-- C1 witness: a 404 response to an unconditional Read completes with
state=Missing, generation=NoValue and stamp.time equal to the pre-request
timestamp 9. -/
theorem read_terminal_status_mapping_witness :
    ReadTask.OnResponse ⟨3, 100, 1000⟩ ⟨⟨0, -1⟩, .unknown, .value "e1"⟩ 9 0 0 0 0
        (.ok ⟨404, "", none, none⟩) =
      .completed (.ok ⟨.missing, "", ⟨.noValue, 9⟩⟩) :=
  (read_terminal_status_mapping ⟨3, 100, 1000⟩ ⟨⟨0, -1⟩, .unknown, .value "e1"⟩ 9 0 0 0 0
    ⟨404, "", none, none⟩).1 (Or.inr rfl)

/-- C2: evaluating WriteTask's Phase 2 response handling at a PUT response
with HTTP status 404 under if_equal = Value("abc"): OnResponse classifies the
404 as a (non-retriable) NotFound-style error and completes the promise with
that error status — it never reaches FinishResponse, whose 404 branch (second
conjunct) would have produced the {generation=Unknown, time=start_time}
result the spec describes. -/
theorem write_put_404_surfaces_error :
    WriteTask.OnResponse ⟨3, 100, 1000⟩ ⟨.value "abc"⟩ 7 0 0 0 0
        (.ok ⟨404, "", none, none⟩) =
      .completed (.error (.httpError 404)) ∧
    WriteTask.FinishResponse ⟨.value "abc"⟩ 7 ⟨404, "", none, none⟩ =
      .ok ⟨.unknown, 7⟩ :=
  ⟨rfl, rfl⟩

/-- C3 counterexample: a conditional Write with if_equal = NoValue whose
Phase 1 HEAD probe returns HTTP 200 does not complete with
{generation=Unknown}; OnPeekResponse falls through to Phase 2 and the PUT is
issued. -/
theorem write_peek_novalue_200_counterexample :
    WriteTask.OnPeekResponse ⟨.noValue⟩ 3 (.ok ⟨200, "", none, none⟩) = .proceedToPhase2 :=
  rfl

/-- C3 amended: for a conditional Write with if_equal = NoValue, the
{generation=Unknown}-without-PUT completion happens when the Phase 1 HEAD
probe returns 304 or 412 (as S3 answers If-Match: "" on an existing object);
when the probe returns 200 the task proceeds to issue the Phase 2 PUT. -/
theorem write_peek_novalue_amended (now : Int) (resp : HttpResponse) :
    ((resp.status_code = 304 ∨ resp.status_code = 412) →
      WriteTask.OnPeekResponse ⟨.noValue⟩ now (.ok resp) =
        .completed (.ok ⟨.unknown, now⟩)) ∧
    (resp.status_code = 200 →
      WriteTask.OnPeekResponse ⟨.noValue⟩ now (.ok resp) = .proceedToPhase2) := by
  constructor
  · intro h
    rcases h with h | h <;> simp [WriteTask.OnPeekResponse, h]
  · intro h
    simp [WriteTask.OnPeekResponse, h]

/-- C3 amended witness: at HEAD status 412 the task completes with
generation=Unknown; at HEAD status 200 it proceeds to the PUT. -/
theorem write_peek_novalue_amended_witness :
    WriteTask.OnPeekResponse ⟨.noValue⟩ 11 (.ok ⟨412, "", none, none⟩) =
      .completed (.ok ⟨.unknown, 11⟩) ∧
    WriteTask.OnPeekResponse ⟨.noValue⟩ 11 (.ok ⟨200, "", none, none⟩) = .proceedToPhase2 :=
  ⟨(write_peek_novalue_amended 11 ⟨412, "", none, none⟩).1 (Or.inr rfl),
   (write_peek_novalue_amended 11 ⟨200, "", none, none⟩).2 rfl⟩

/-- C4: evaluating the List pipeline at the failing input — caller range
["ab", "b"), strip_prefix_length 1, and a first page whose only key is "aa".
IssueRequest's prefix computation truncates the stored range's lower bound to
"a" (third conjunct), so the page filter accepts "aa" and emits it (stripped
to "a") even though "aa" lies outside the caller's range (second
conjunct). -/
theorem list_emits_key_outside_range :
    ListTask.ProcessFirstPage ⟨3, 100, 1000⟩ ⟨⟨"ab", "b"⟩, 1⟩ false 0 0 0 0
        (.ok ⟨200, listPageWithKeyAA, none, none⟩) =
      [.value "a", .done, .stopping] ∧
    KeyRange.Contains ⟨"ab", "b"⟩ "aa" = false ∧
    (ListTask.IssueRequestOptions ⟨⟨"ab", "b"⟩, 1⟩).range = ⟨"a", "b"⟩ :=
  ⟨rfl, rfl, rfl⟩

/-- C5 counterexample: a Phase 1 HEAD probe answered with HTTP 503 does not
fail the task; both WriteTask and DeleteTask proceed to Phase 2 and issue the
PUT/DELETE. -/
theorem peek_5xx_counterexample :
    WriteTask.OnPeekResponse ⟨.value "g0"⟩ 3 (.ok ⟨503, "", none, none⟩) =
      .proceedToPhase2 ∧
    DeleteTask.OnPeekResponse ⟨.value "g0"⟩ 3 (.ok ⟨503, "", none, none⟩) =
      .proceedToPhase2 :=
  ⟨rfl, rfl⟩

/-- C5 amended: a transport-level failure of the Phase 1 HEAD probe completes
the Write or Delete task with that error, without issuing Phase 2 and without
any probe-layer retry (OnPeekResponse has no retry path); an HTTP 5xx probe
response, however, is not failed at the probe layer — it proceeds to
Phase 2. -/
theorem peek_transport_and_5xx (o : WriteOptions) (now : Int) :
    (∀ e : AbslStatus,
      WriteTask.OnPeekResponse o now (.error e) = .completed (.error e) ∧
      DeleteTask.OnPeekResponse o now (.error e) = .completed (.error e)) ∧
    (∀ resp : HttpResponse, 500 ≤ resp.status_code → resp.status_code < 600 →
      WriteTask.OnPeekResponse o now (.ok resp) = .proceedToPhase2 ∧
      DeleteTask.OnPeekResponse o now (.ok resp) = .proceedToPhase2) := by
  constructor
  · intro e
    exact ⟨rfl, rfl⟩
  · intro resp h5 h6
    have h304 : resp.status_code ≠ 304 := by omega
    have h412 : resp.status_code ≠ 412 := by omega
    have h404 : resp.status_code ≠ 404 := by omega
    exact ⟨by simp [WriteTask.OnPeekResponse, h304, h412, h404],
           by simp [DeleteTask.OnPeekResponse, h412, h404]⟩

/-- C5 amended witness: a 503 HEAD probe proceeds to Phase 2, and a transport
failure completes the task with that error. -/
theorem peek_transport_and_5xx_witness :
    WriteTask.OnPeekResponse ⟨.value "g1"⟩ 2 (.ok ⟨503, "", none, none⟩) =
      .proceedToPhase2 ∧
    DeleteTask.OnPeekResponse ⟨.value "g1"⟩ 2 (.error (.transportError "broken pipe")) =
      .completed (.error (.transportError "broken pipe")) :=
  ⟨((peek_transport_and_5xx ⟨.value "g1"⟩ 2).2 ⟨503, "", none, none⟩ (by decide) (by decide)).1,
   ((peek_transport_and_5xx ⟨.value "g1"⟩ 2).1 (.transportError "broken pipe")).2⟩

/-- C6: a Delete whose final DELETE response is 2xx or 404 completes
successfully with {generation=NoValue, time=start_time}, except that a 404
under an if_equal naming a concrete Value yields {generation=Unknown} (also
stamped with start_time).  In particular a second Delete of the same key —
the server answering 404 to an unconditional DELETE — succeeds with
generation=NoValue. -/
theorem delete_response_mapping (s : RetrySpec) (o : WriteOptions) (start_time : Int)
    (attempt retries : Nat) (jitter now : Int) (resp : HttpResponse) :
    (resp.status_code = 404 → (∃ e, o.if_equal = .value e) →
      DeleteTask.OnResponse s o start_time attempt retries jitter now (.ok resp) =
        .completed (.ok ⟨.unknown, start_time⟩)) ∧
    (resp.status_code = 404 → (o.if_equal = .unknown ∨ o.if_equal = .noValue) →
      DeleteTask.OnResponse s o start_time attempt retries jitter now (.ok resp) =
        .completed (.ok ⟨.noValue, start_time⟩)) ∧
    (200 ≤ resp.status_code → resp.status_code < 300 →
      DeleteTask.OnResponse s o start_time attempt retries jitter now (.ok resp) =
        .completed (.ok ⟨.noValue, start_time⟩)) := by
  refine ⟨?_, ?_, ?_⟩
  · intro h404 he
    rcases he with ⟨e, he⟩
    simp [DeleteTask.OnResponse, DeleteTask.responseStatus, AbslStatus.isOk, IsRetriable,
      h404, he, StorageGeneration.IsNoValue, StorageGeneration.IsUnknown]
  · intro h404 he
    rcases he with he | he <;>
      simp [DeleteTask.OnResponse, DeleteTask.responseStatus, AbslStatus.isOk, IsRetriable,
        h404, he, StorageGeneration.IsNoValue, StorageGeneration.IsUnknown]
  · intro h2 h3
    have h404 : resp.status_code ≠ 404 := by omega
    simp [DeleteTask.OnResponse, DeleteTask.responseStatus, HttpResponseCodeToStatus,
      AbslStatus.isOk, IsRetriable, h404, h3]

/-- C6 witness: a 404 DELETE response under if_equal=Value("gen2") yields
generation=Unknown, and under if_equal=Unknown yields generation=NoValue,
both stamped with start_time 4. -/
theorem delete_response_mapping_witness :
    DeleteTask.OnResponse ⟨3, 100, 1000⟩ ⟨.value "gen2"⟩ 4 0 0 0 0
        (.ok ⟨404, "", none, none⟩) =
      .completed (.ok ⟨.unknown, 4⟩) ∧
    DeleteTask.OnResponse ⟨3, 100, 1000⟩ ⟨.unknown⟩ 4 0 0 0 0
        (.ok ⟨404, "", none, none⟩) =
      .completed (.ok ⟨.noValue, 4⟩) :=
  ⟨(delete_response_mapping ⟨3, 100, 1000⟩ ⟨.value "gen2"⟩ 4 0 0 0 0
      ⟨404, "", none, none⟩).1 rfl ⟨"gen2", rfl⟩,
   (delete_response_mapping ⟨3, 100, 1000⟩ ⟨.unknown⟩ 4 0 0 0 0
      ⟨404, "", none, none⟩).2.1 rfl (Or.inl rfl)⟩

/-- C7: BackoffForAttemptAsync at attempt number n with jitter in
[0, min(1s, initial_delay)]: if n has reached max_retries, the task fails
terminally with the Aborted-coded error that wraps the original status and
records the number of failed attempts; otherwise the shared retries counter
is incremented by exactly one and Retry is scheduled on the executor at
now + delay with delay = min(initial_delay * 2^n, max_delay) + jitter. -/
theorem backoff_for_attempt_policy (s : RetrySpec) (status : AbslStatus)
    (attempt retries : Nat) (jitter now : Int)
    (hj0 : 0 ≤ jitter) (hj1 : jitter ≤ min oneSecond s.initial_delay) :
    (s.max_retries ≤ attempt →
      S3KeyValueStore.BackoffForAttemptAsync s status attempt retries jitter now =
        .terminalFailure (.abortedError attempt status)) ∧
    (attempt < s.max_retries →
      S3KeyValueStore.BackoffForAttemptAsync s status attempt retries jitter now =
        .retryAt (now + (min (s.initial_delay * 2 ^ attempt) s.max_delay + jitter))
          (retries + 1)) := by
  constructor
  · intro h
    simp [S3KeyValueStore.BackoffForAttemptAsync, h]
  · intro h
    have h2 : ¬ s.max_retries ≤ attempt := by omega
    simp [S3KeyValueStore.BackoffForAttemptAsync, BackoffForAttempt, h2]

/-- C7 witness: at attempt 1 with max_retries 3, initial_delay 100 and
max_delay 1000, a jitter of 7 schedules the retry at 50 + (200 + 7) and moves
the retries counter from 4 to 5; at attempt 3 the task aborts wrapping the
original status. -/
theorem backoff_for_attempt_policy_witness :
    ((0 : Int) ≤ 7 ∧ (7 : Int) ≤ min oneSecond (100 : Int)) ∧
    S3KeyValueStore.BackoffForAttemptAsync ⟨3, 100, 1000⟩ (.httpError 503) 1 4 7 50 =
      .retryAt (50 + (min ((100 : Int) * 2 ^ 1) 1000 + 7)) 5 ∧
    S3KeyValueStore.BackoffForAttemptAsync ⟨3, 100, 1000⟩ (.httpError 503) 3 4 7 50 =
      .terminalFailure (.abortedError 3 (.httpError 503)) :=
  ⟨⟨by decide, by decide⟩,
   (backoff_for_attempt_policy ⟨3, 100, 1000⟩ (.httpError 503) 1 4 7 50
     (by decide) (by decide)).2 (by decide),
   (backoff_for_attempt_policy ⟨3, 100, 1000⟩ (.httpError 503) 3 4 7 50
     (by decide) (by decide)).1 (by decide)⟩

/-- FinishResponse at a 206 response with parsed Content-Range (A, B, C)
reduces to the out-of-range check followed by the value result. -/
theorem ReadTask.finishResponse_206 (o : ReadOptions) (t : Int) (resp : HttpResponse)
    (A B C : Nat) (h206 : resp.status_code = 206)
    (hcr : resp.content_range = some (A, B, C)) :
    ReadTask.FinishResponse o t resp =
      if (o.byte_range.inclusive_min ≠ -1 ∧ o.byte_range.inclusive_min ≠ (A : Int)) ∨
         (o.byte_range.size ≠ -1 ∧ o.byte_range.size ≠ (resp.payload.length : Int)) then
        .error (.outOfRangeError "Requested byte range was not satisfied by S3 response")
      else
        match StorageGenerationFromHeaders resp with
        | .error e => .error e
        | .ok g => .ok { state := .value, value := resp.payload, stamp := ⟨g, t⟩ } := by
  simp [ReadTask.FinishResponse, h206, ParseContentRangeHeader, hcr]

/-- C8: a Read whose response has HTTP status 206 (with a parseable
Content-Range header (A, B, C) and an ETag) reaches FinishResponse, which
fails with an out-of-range error exactly when the request specified an
inclusive_min differing from the range start A, or specified a total size
differing from the payload length; otherwise the result is state=Value with
the full 206 payload as the value. -/
theorem read_206_content_range_validation (s : RetrySpec) (o : ReadOptions)
    (start_time : Int) (attempt retries : Nat) (jitter now : Int) (resp : HttpResponse)
    (A B C : Nat) (g : String)
    (h206 : resp.status_code = 206)
    (hcr : resp.content_range = some (A, B, C))
    (hg : resp.etag = some g) :
    (ReadTask.OnResponse s o start_time attempt retries jitter now (.ok resp) =
      .completed (ReadTask.FinishResponse o start_time resp)) ∧
    (((o.byte_range.inclusive_min ≠ -1 ∧ o.byte_range.inclusive_min ≠ (A : Int)) ∨
      (o.byte_range.size ≠ -1 ∧ o.byte_range.size ≠ (resp.payload.length : Int))) →
      ReadTask.FinishResponse o start_time resp =
        .error (.outOfRangeError "Requested byte range was not satisfied by S3 response")) ∧
    (¬ ((o.byte_range.inclusive_min ≠ -1 ∧ o.byte_range.inclusive_min ≠ (A : Int)) ∨
        (o.byte_range.size ≠ -1 ∧ o.byte_range.size ≠ (resp.payload.length : Int))) →
      ReadTask.FinishResponse o start_time resp =
        .ok { state := .value, value := resp.payload, stamp := ⟨.value g, start_time⟩ }) := by
  refine ⟨?_, ?_, ?_⟩
  · simp [ReadTask.OnResponse, ReadTask.responseStatus, HttpResponseCodeToStatus,
      AbslStatus.isOk, IsRetriable, h206]
  · intro hP
    rw [ReadTask.finishResponse_206 o start_time resp A B C h206 hcr, if_pos hP]
  · intro hP
    rw [ReadTask.finishResponse_206 o start_time resp A B C h206 hcr, if_neg hP]
    simp [StorageGenerationFromHeaders, hg]

/-- C8 witness: a 206 response with Content-Range bytes 100-102/500 and a
3-byte payload satisfies a request for [100, 103), producing state=Value with
the full payload. -/
theorem read_206_content_range_validation_witness :
    ReadTask.FinishResponse ⟨⟨100, 103⟩, .unknown, .unknown⟩ 5
        ⟨206, "abc", some "W1", some (100, 102, 500)⟩ =
      .ok { state := .value, value := "abc", stamp := ⟨.value "W1", 5⟩ } :=
  (read_206_content_range_validation ⟨3, 100, 1000⟩ ⟨⟨100, 103⟩, .unknown, .unknown⟩ 5 0 0 0 0
    ⟨206, "abc", some "W1", some (100, 102, 500)⟩ 100 102 500 "W1" rfl rfl rfl).2.2
    (by decide)

/-- C9: a List page answered with a non-retriable HTTP error status (for
example 403 or 404) never surfaces that status to the receiver;
OnResponseImpl drops it and parses the body as ListBucketResult XML, so the
receiver observes set_error with the tag-extraction failure for the missing
ListBucketResult open tag, followed by set_stopping. -/
theorem list_error_body_parsed_as_xml (s : RetrySpec) (o : ListOptions)
    (attempt retries : Nat) (jitter now : Int) (resp : HttpResponse)
    (hcode : ¬ resp.status_code < 300)
    (hnr : IsRetriable (.httpError resp.status_code) = false)
    (hmiss : findSub resp.payload.data kListBucketOpenTag.data 0 = none) :
    ∃ m, ListTask.OnResponse s o false attempt retries jitter now (.ok resp) =
        [.errorEv (.invalidArgumentError m), .stopping] ∧
      AbslStatus.invalidArgumentError m ≠ AbslStatus.httpError resp.status_code := by
  refine ⟨"Malformed ListObjectV2 response: missing tag " ++ kListBucketOpenTag, ?_, by simp⟩
  simp [ListTask.OnResponse, ListTask.OnResponseImpl, ListTask.responseStatus,
    HttpResponseCodeToStatus, hcode, hnr, AbslStatus.isOk, ParseAndEmit, FindTag, hmiss]

/-- C9 witness: a 403 response whose body is an S3 error document yields
set_error with the XML tag-extraction failure (not a 403-derived status),
then set_stopping. -/
theorem list_error_body_parsed_as_xml_witness :
    ∃ m, ListTask.OnResponse ⟨3, 100, 1000⟩ ⟨⟨"", ""⟩, 0⟩ false 0 0 0 0
        (.ok ⟨403, "<Error>AccessDenied</Error>", none, none⟩) =
        [.errorEv (.invalidArgumentError m), .stopping] ∧
      AbslStatus.invalidArgumentError m ≠ AbslStatus.httpError 403 :=
  list_error_body_parsed_as_xml ⟨3, 100, 1000⟩ ⟨⟨"", ""⟩, 0⟩ 0 0 0 0
    ⟨403, "<Error>AccessDenied</Error>", none, none⟩ (by decide) (by decide) (by decide)

/-- C10: in ListTask::OnResponseImpl a transport-level failure (an errored
Result<HttpResponse>) always takes the cancelled or retriable early-return
path, so the payload of the errored Result — whose dereference the model
marks as `none` (undefined behavior) — is never read. -/
theorem list_transport_failure_early_return (s : RetrySpec) (o : ListOptions)
    (cancelled : Bool) (attempt retries : Nat) (jitter now : Int) (m : String) :
    (ListTask.OnResponseImpl s o cancelled attempt retries jitter now
        (.error (.transportError m))).isSome = true ∧
    ∀ d, ListTask.OnResponseImpl s o cancelled attempt retries jitter now
        (.error (.transportError m)) = some d →
      d = .cancelledDisp ∨ (∃ t r, d = .backoffScheduled t r) ∨
        (∃ e, d = .backoffExhausted e) := by
  cases cancelled
  · constructor
    · simp [ListTask.OnResponseImpl, ListTask.responseStatus, AbslStatus.isOk, IsRetriable]
    · intro d h
      simp [ListTask.OnResponseImpl, ListTask.responseStatus, AbslStatus.isOk,
        IsRetriable] at h
      subst h
      rcases hb : S3KeyValueStore.BackoffForAttemptAsync s (.transportError m)
          attempt retries jitter now with e | ⟨t, r⟩
      · exact Or.inr (Or.inr ⟨e, rfl⟩)
      · exact Or.inr (Or.inl ⟨t, r, rfl⟩)
  · constructor
    · simp [ListTask.OnResponseImpl]
    · intro d h
      simp [ListTask.OnResponseImpl] at h
      exact Or.inl h.symm

/-- C10 witness: a concrete transport failure is disposed of by the
backoff path without touching the response payload. -/
theorem list_transport_failure_early_return_witness :
    (ListTask.OnResponseImpl ⟨3, 100, 1000⟩ ⟨⟨"", ""⟩, 0⟩ false 0 0 0 5
        (.error (.transportError "connection reset"))).isSome = true :=
  (list_transport_failure_early_return ⟨3, 100, 1000⟩ ⟨⟨"", ""⟩, 0⟩ false 0 0 0 5
    "connection reset").1
